import Mathlib

/-!
Verification of the message compliance-and-dispatch pipeline of the
custom-mms-platform repository.  The definitions below are a shallow
embedding of the JavaScript source:

* `src/unnamed/part_001` (the `ComplianceService` class),
* `src/server/models/Message.js` (the `Message` mongoose model),
* `src/server/services/mmsService.js` (the `MMSService` class),
* `src/server/routes/messages.js` (the send / retry / webhook routes).

JavaScript conventions are embedded explicitly:

* `new Date()` timestamps are an explicit `now : Nat` parameter;
* fields that may be `undefined`/`null` in JS are `Option`s; the JS
  truthiness test `x || fallback` on an array field is `Option.getD`
  (a present-but-empty array is truthy in JS, so `some []` does *not*
  fall back);
* a thrown error / rejected promise is the `Except.error` branch;
* async calls to external collaborators (the provider network call,
  the template collaborator) are explicit oracle parameters.
-/

/-- `pat` is a prefix of `text` (character lists). -/
def listIsPrefix : List Char → List Char → Bool
  | [], _ => true
  | _ :: _, [] => false
  | a :: as, b :: bs => a == b && listIsPrefix as bs

/-- `pat` occurs as a contiguous run inside `text` (character lists). -/
def listIsSub (pat : List Char) : List Char → Bool
  | [] => pat.isEmpty
  | c :: rest => listIsPrefix pat (c :: rest) || listIsSub pat rest

/-- `text.includes(pat)` on an already-lowercased `text`:
substring containment on the character lists. -/
def containsSub (text pat : String) : Bool :=
  listIsSub pat.toList text.toList

/-- ASCII lowercasing of one character, as JS `toLowerCase` acts on the
ASCII configuration strings of this repository. -/
def charLower (c : Char) : Char :=
  if 'A' ≤ c ∧ c ≤ 'Z' then Char.ofNat (c.toNat + 32) else c

/-- `s.toLowerCase()` (ASCII). -/
def strLower (s : String) : String :=
  ⟨s.data.map charLower⟩

/-- `s.startsWith("+")`. -/
def startsWithPlus (s : String) : Bool :=
  match s.data with
  | '+' :: _ => true
  | _ => false

/-- `this.restrictedKeywords` — the built-in default restricted-keyword
list of `ComplianceService`'s constructor. -/
def defaultRestrictedKeywords : List String :=
  ["marijuana", "cannabis", "weed", "pot", "smoke", "smoking", "vape",
   "vaping", "e-cigarette", "nicotine", "tobacco", "high", "stoned",
   "baked", "blazed", "dank", "kush", "thc", "cbd", "hemp", "edibles",
   "concentrates", "bong", "pipe", "joint", "blunt", "dab", "wax",
   "sativa", "indica", "hybrid", "strain"]

/-- `this.requiredDisclaimers` — the built-in default disclaimer list of
`ComplianceService`'s constructor. -/
def defaultRequiredDisclaimers : List String :=
  ["For adults 21+ only", "Consume responsibly", "Not for sale to minors",
   "Check local laws", "This product is not approved by the FDA"]

/-- One media item of `content.media` (Message schema). -/
structure MediaItem where
  url : String
  filename : String
  size : Nat
  mimeType : String
deriving DecidableEq

/-- The `content` sub-record of a message / of a send request. -/
structure Content where
  text : Option String
  media : List MediaItem
  templateId : Option Nat
deriving DecidableEq

/-- The `recipient` sub-record (Message schema). -/
structure Recipient where
  phoneNumber : String
  ageVerified : Bool
  consentGiven : Bool
  optOutStatus : Bool
deriving DecidableEq

/-- `client.complianceSettings` (Client schema).  The two list fields
are `Option`s so that the JS distinction between an `undefined` field
(falsy, triggers the `||` fallback) and a present empty array (truthy,
no fallback) is preserved. -/
structure ComplianceSettings where
  ageVerificationRequired : Bool
  consentRequired : Bool
  maxMessagesPerDay : Nat
  restrictedKeywords : Option (List String)
  requiredDisclaimers : Option (List String)
deriving DecidableEq

/-- `client.mmsSettings.apiCredentials` (Client schema); every field may
be absent. -/
structure ApiCredentials where
  accountSid : Option String
  authToken : Option String
  fromNumber : Option String
  accountId : Option String
  username : Option String
  password : Option String
  apiKey : Option String
deriving DecidableEq

/-- `client.mmsSettings` (Client schema). -/
structure MmsSettings where
  provider : String
  apiCredentials : ApiCredentials
deriving DecidableEq

/-- `client.subscription` (the fields `canSendMessage` reads). -/
structure Subscription where
  status : String
  messagesUsed : Nat
  messagesLimit : Nat
deriving DecidableEq

/-- The tenant (`Client` model) restricted to the fields the pipeline
reads. -/
structure Client where
  complianceSettings : ComplianceSettings
  mmsSettings : MmsSettings
  isActive : Bool
  subscription : Subscription
  complianceStatus : String
deriving DecidableEq

/-- `clientSchema.methods.canSendMessage`. -/
def canSendMessage (c : Client) : Bool :=
  (c.isActive && c.subscription.status == "active")
    && decide (c.subscription.messagesUsed < c.subscription.messagesLimit)
    && (c.complianceStatus == "compliant")

/-- `ComplianceService.verifyAge` — the `verified` field of its result:
passes when the tenant does not require age verification or the
recipient is already age-verified. -/
def verifyAge (recipient : Recipient) (client : Client) : Bool :=
  if !client.complianceSettings.ageVerificationRequired then true
  else if recipient.ageVerified then true
  else recipient.ageVerified

/-- `ComplianceService.verifyConsent` — the `verified` field of its
result. -/
def verifyConsent (recipient : Recipient) (client : Client) : Bool :=
  if !client.complianceSettings.consentRequired then true
  else if recipient.consentGiven then true
  else recipient.consentGiven

/-- Result record of `ComplianceService.screenContent`. -/
structure ScreeningResults where
  screened : Bool
  approved : Bool
  reason : String
  flaggedKeywords : List String
deriving DecidableEq

/-- The three regex alternatives of
`ComplianceService.checkInappropriateContent`
(`/underage|minor|child/gi`, `/illegal|unlawful/gi`,
`/addiction|addict/gi`); the scanned text is already lowercased. -/
def inappropriatePatterns : List (List String) :=
  [["underage", "minor", "child"], ["illegal", "unlawful"],
   ["addiction", "addict"]]

/-- `ComplianceService.checkInappropriateContent` — `true` means
approved (no pattern matched). -/
def checkInappropriateContent (text : String) : Bool :=
  !(inappropriatePatterns.any fun pat => pat.any fun w => containsSub text w)

/-- `allowedTypes` of `ComplianceService.checkMediaContent`. -/
def allowedMediaTypes : List String :=
  ["image/jpeg", "image/png", "image/gif", "video/mp4", "audio/mp3"]

/-- `maxSize` of `ComplianceService.checkMediaContent` (5 MiB). -/
def maxMediaSize : Nat := 5 * 1024 * 1024

/-- `ComplianceService.checkMediaContent`: the reason of the first
violating media item (type checked before size, items in order), or
`none` when every item is acceptable. -/
def checkMediaContent : List MediaItem → Option String
  | [] => none
  | item :: rest =>
    if !(allowedMediaTypes.contains item.mimeType) then
      some ("Unsupported media type: " ++ item.mimeType)
    else if item.size > maxMediaSize then
      some ("Media file too large: " ++ toString item.size ++ " bytes")
    else checkMediaContent rest

/-- The lowercased message text, `content.text?.toLowerCase() || ""`. -/
def textOf (content : Content) : String :=
  strLower (content.text.getD "")

/-- The restricted-keyword list `screenContent` actually scans:
`client.complianceSettings.restrictedKeywords || this.restrictedKeywords`
(the fallback fires only when the tenant field is absent). -/
def effectiveRestrictedKeywords (client : Client) : List String :=
  client.complianceSettings.restrictedKeywords.getD defaultRestrictedKeywords

/-- `foundKeywords` of `screenContent`: the scanned keywords that occur
(case-insensitively) in the message text. -/
def foundKeywordsOf (content : Content) (client : Client) : List String :=
  (effectiveRestrictedKeywords client).filter
    fun keyword => containsSub (textOf content) (strLower keyword)

/-- The media check as performed inside `screenContent` (only run when
media is present). -/
def mediaViolationOf (content : Content) : Option String :=
  if content.media.length > 0 then checkMediaContent content.media else none

/-- `ComplianceService.screenContent`.  The `results` object starts
`{screened: true, approved: true, reason: ""}` and each failing check
overwrites `reason`, in source order: restricted keywords, then
inappropriate-content patterns, then media, then length. -/
def screenContent (content : Content) (client : Client) : ScreeningResults :=
  let text := textOf content
  let foundKeywords := foundKeywordsOf content client
  let r0 : ScreeningResults :=
    { screened := true, approved := true, reason := "", flaggedKeywords := [] }
  let r1 :=
    if foundKeywords.length > 0 then
      { r0 with
        approved := false, flaggedKeywords := foundKeywords,
        reason := "Content contains restricted keywords: "
          ++ String.intercalate ", " foundKeywords }
    else r0
  let r2 :=
    if !checkInappropriateContent text then
      { r1 with
        approved := false,
        reason := "Content contains inappropriate language" }
    else r1
  let r3 :=
    match mediaViolationOf content with
    | some reason => { r2 with approved := false, reason := reason }
    | none => r2
  let r4 :=
    if text.length > 1600 then
      { r3 with approved := false, reason := "Message exceeds character limit" }
    else r3
  r4

/-- Result record of `ComplianceService.checkDisclaimers`. -/
structure DisclaimerResult where
  included : Bool
  found : List String
  missing : List String
deriving DecidableEq

/-- `ComplianceService.checkDisclaimers`:
`client.complianceSettings.requiredDisclaimers || this.requiredDisclaimers`,
then a case-insensitive substring scan; `included` is true when at least
one required disclaimer occurs in the text. -/
def checkDisclaimers (content : Content) (client : Client) : DisclaimerResult :=
  let requiredDisclaimers :=
    client.complianceSettings.requiredDisclaimers.getD defaultRequiredDisclaimers
  let text := textOf content
  let includedDisclaimers :=
    requiredDisclaimers.filter fun d => containsSub text (strLower d)
  { included := includedDisclaimers.length > 0,
    found := includedDisclaimers,
    missing := requiredDisclaimers.filter
      fun d => !includedDisclaimers.contains d }

/-- `businessStart` of `ComplianceService.checkBusinessHours`. -/
def businessStart : Nat := 9

/-- `businessEnd` of `ComplianceService.checkBusinessHours`. -/
def businessEnd : Nat := 21

/-- `ComplianceService.checkBusinessHours` — the `allowed` field;
`now.getHours()` is the explicit `hour` parameter. -/
def checkBusinessHours (hour : Nat) : Bool :=
  decide (businessStart ≤ hour) && decide (hour < businessEnd)

/-- `ComplianceService.checkRateLimit` — the `allowed` field; the source
stubs the counting and always allows. -/
def checkRateLimit (_recipient : Recipient) (_client : Client) : Bool :=
  true

/-- The aggregated result record of
`ComplianceService.checkMessageCompliance`.  `screeningResults` is an
`Option` because the source assigns `contentCheck.results`, a key that
`screenContent`'s result does not have (so the stored value is
`undefined`). -/
structure ComplianceVerdict where
  passed : Bool
  ageVerified : Bool
  consentVerified : Bool
  contentScreened : Bool
  disclaimersIncluded : Bool
  details : List String
  screeningResults : Option ScreeningResults
deriving DecidableEq

/-- `ComplianceService.checkMessageCompliance`, with the current clock
hour as an explicit parameter.  When
`client.complianceSettings.requiredDisclaimers` is absent the source
throws (`undefined.length`) inside the `try` and the `catch` returns the
terminal failure verdict; that is the `none` branch here.  Otherwise the
six checks run in order, each failing check appending its reason. -/
def checkMessageCompliance (client : Client) (recipient : Recipient)
    (content : Content) (hour : Nat) : ComplianceVerdict :=
  match client.complianceSettings.requiredDisclaimers with
  | none =>
    { passed := false, ageVerified := false, consentVerified := false,
      contentScreened := false, disclaimersIncluded := false,
      details := ["Compliance check failed: cannot read length of undefined"],
      screeningResults := none }
  | some requiredList =>
    let r0 : ComplianceVerdict :=
      { passed := true, ageVerified := false, consentVerified := false,
        contentScreened := false, disclaimersIncluded := false,
        details := [], screeningResults := none }
    let ageOk := verifyAge recipient client
    let r1 := { r0 with ageVerified := ageOk }
    let r2 :=
      if !ageOk then
        { r1 with
          passed := false,
          details := r1.details ++ ["Age verification required"] }
      else r1
    let consentOk := verifyConsent recipient client
    let r3 := { r2 with consentVerified := consentOk }
    let r4 :=
      if !consentOk then
        { r3 with
          passed := false,
          details := r3.details ++ ["Consent verification required"] }
      else r3
    let contentCheck := screenContent content client
    let r5 := { r4 with
        contentScreened := contentCheck.screened,
        screeningResults := none }
    let r6 :=
      if !contentCheck.approved then
        { r5 with
          passed := false,
          details := r5.details
            ++ ["Content failed screening: " ++ contentCheck.reason] }
      else r5
    let disclaimerCheck := checkDisclaimers content client
    let r7 := { r6 with disclaimersIncluded := disclaimerCheck.included }
    let r8 :=
      if !disclaimerCheck.included && decide (requiredList.length > 0) then
        { r7 with
          passed := false,
          details := r7.details ++ ["Required disclaimers missing"] }
      else r7
    let hoursOk := checkBusinessHours hour
    let r9 :=
      if !hoursOk then
        { r8 with
          passed := false,
          details := r8.details
            ++ ["Messages not allowed outside business hours"] }
      else r8
    let rateOk := checkRateLimit recipient client
    let r10 :=
      if !rateOk then
        { r9 with
          passed := false,
          details := r9.details ++ ["Rate limit exceeded for recipient"] }
      else r9
    r10

/-! ## The Message model (`src/server/models/Message.js`) -/

/-- The `delivery.status` enum of the Message schema. -/
inductive DeliveryStatus where
  | pending
  | sent
  | delivered
  | failed
  | undelivered
deriving DecidableEq, BEq

/-- The `delivery` sub-record of a message.  Timestamps are `Nat`s. -/
structure Delivery where
  status : DeliveryStatus
  providerMessageId : Option String
  providerResponse : Option String
  sentAt : Option Nat
  deliveredAt : Option Nat
  failureReason : Option String
  retryCount : Nat
  maxRetries : Nat
deriving DecidableEq

/-- The `compliance` sub-record of a message. -/
structure MessageCompliance where
  ageVerificationPassed : Bool
  consentVerified : Bool
  contentScreened : Bool
  disclaimersIncluded : Bool
deriving DecidableEq

/-- The `scheduling` sub-record (the field the routes read). -/
structure Scheduling where
  isScheduled : Bool
deriving DecidableEq

/-- A persisted message, restricted to the fields the pipeline reads and
writes. -/
structure Message where
  recipient : Recipient
  content : Content
  delivery : Delivery
  compliance : MessageCompliance
  scheduling : Scheduling
deriving DecidableEq

/-- The schema defaults of the `delivery` sub-record: a new message is
`pending` with `retryCount = 0` and `maxRetries = 3`. -/
def defaultDelivery : Delivery :=
  { status := .pending, providerMessageId := none, providerResponse := none,
    sentAt := none, deliveredAt := none, failureReason := none,
    retryCount := 0, maxRetries := 3 }

/-- `messageSchema.pre("save")` followed by the write: the middleware
rejects a save when the message is `pending` and either compliance flag
is missing; otherwise the record is persisted unchanged. -/
def save (m : Message) : Except String Message :=
  if m.delivery.status = .pending ∧ m.compliance.ageVerificationPassed = false then
    .error "Age verification required before sending message"
  else if m.delivery.status = .pending ∧ m.compliance.consentVerified = false then
    .error "Consent verification required before sending message"
  else
    .ok m

/-- The `additionalData` object passed to `updateDeliveryStatus`.  An
outer `none` means the key is absent from the object (the field is left
alone); `some v` means the key is present and `Object.assign` writes `v`
(possibly `undefined`, i.e. the inner `none`). -/
structure DeliveryPatch where
  providerMessageId : Option (Option String) := none
  providerResponse : Option (Option String) := none
  failureReason : Option (Option String) := none
deriving DecidableEq

/-- `Object.assign(this.delivery, additionalData)`. -/
def applyPatch (d : Delivery) (p : DeliveryPatch) : Delivery :=
  { d with
    providerMessageId := p.providerMessageId.getD d.providerMessageId,
    providerResponse := p.providerResponse.getD d.providerResponse,
    failureReason := p.failureReason.getD d.failureReason }

/-- The pure part of `messageSchema.methods.updateDeliveryStatus`: set
`status` unconditionally, stamp `sentAt` on `"sent"` and `deliveredAt`
on `"delivered"`, then merge `additionalData`. -/
def deliveryAfter (d : Delivery) (status : DeliveryStatus) (now : Nat)
    (additionalData : DeliveryPatch) : Delivery :=
  let d0 := { d with status := status }
  let d1 :=
    if status == .sent then { d0 with sentAt := some now }
    else if status == .delivered then { d0 with deliveredAt := some now }
    else d0
  applyPatch d1 additionalData

/-- `messageSchema.methods.updateDeliveryStatus(status, additionalData)`
(`new Date()` is the explicit `now`): mutate the delivery sub-record and
`save()`. -/
def updateDeliveryStatus (m : Message) (status : DeliveryStatus) (now : Nat)
    (additionalData : DeliveryPatch) : Except String Message :=
  save { m with delivery := deliveryAfter m.delivery status now additionalData }

/-- `messageSchema.methods.canRetry`. -/
def canRetry (m : Message) : Bool :=
  decide (m.delivery.retryCount < m.delivery.maxRetries)
    && decide (m.delivery.status = .failed)

/-- `messageSchema.methods.incrementRetry`: unconditionally add one to
`retryCount` and `save()`. -/
def incrementRetry (m : Message) : Except String Message :=
  save { m with
         delivery := { m.delivery with
                       retryCount := m.delivery.retryCount + 1 } }

/-! ## The provider adapter (`src/server/services/mmsService.js`) -/

/-- `mmsService.validatePhoneNumber`: the regex
`^\+?[1-9]\d\x7b1,14\x7d$` — an optional leading plus, a first digit in
1-9, then one to fourteen further digits. -/
def validatePhoneNumber (phoneNumber : String) : Bool :=
  let cs :=
    match phoneNumber.toList with
    | '+' :: rest => rest
    | cs => cs
  match cs with
  | [] => false
  | c :: rest =>
    c.isDigit && c != '0'
      && decide (1 ≤ rest.length) && decide (rest.length ≤ 14)
      && rest.all Char.isDigit

/-- `mmsService.formatPhoneNumber`: throw on an invalid value, prepend
the domestic "+1" to a bare 10-digit value, prepend "+" to any other
bare value, leave a "+"-prefixed value unchanged. -/
def formatPhoneNumber (phoneNumber : String) : Except String String :=
  if !validatePhoneNumber phoneNumber then
    .error "Invalid phone number format"
  else if !startsWithPlus phoneNumber then
    if phoneNumber.length == 10 then .ok ("+1" ++ phoneNumber)
    else .ok ("+" ++ phoneNumber)
  else
    .ok phoneNumber

/-- JS truthiness of an optional string credential: absent and empty
values are falsy. -/
def truthyStr : Option String → Bool
  | none => false
  | some s => !s.isEmpty

/-- What a provider call returns on success. -/
structure SendResult where
  messageId : String
  response : String
  provider : String
deriving DecidableEq

/-- The `messageData` object `twilioProvider` builds: the recipient
number is used verbatim (`to: message.recipient.phoneNumber`). -/
structure TwilioMessageData where
  msgFrom : String
  msgTo : String
  body : Option String
  mediaUrl : List String
deriving DecidableEq

/-- The payload construction inside `mmsService.twilioProvider`. -/
def twilioMessageData (message : Message) (fromNumber : String) :
    TwilioMessageData :=
  { msgFrom := fromNumber,
    msgTo := message.recipient.phoneNumber,
    body := message.content.text,
    mediaUrl := message.content.media.map fun media => media.url }

/-- The `messageData` object `bandwidthProvider` builds; again
`to: message.recipient.phoneNumber` verbatim. -/
structure BandwidthMessageData where
  msgFrom : String
  msgTo : String
  text : Option String
  media : List String
deriving DecidableEq

/-- The payload construction inside `mmsService.bandwidthProvider`. -/
def bandwidthMessageData (message : Message) (fromNumber : String) :
    BandwidthMessageData :=
  { msgFrom := fromNumber,
    msgTo := message.recipient.phoneNumber,
    text := message.content.text,
    media := message.content.media.map fun media => media.url }

/-- The `messageData` object `messagebirdProvider` builds;
`recipients: [message.recipient.phoneNumber]` verbatim. -/
structure MessagebirdMessageData where
  originator : String
  recipients : List String
  body : Option String
  mediaUrls : List String
deriving DecidableEq

/-- The payload construction inside `mmsService.messagebirdProvider`. -/
def messagebirdMessageData (message : Message) (fromNumber : String) :
    MessagebirdMessageData :=
  { originator := fromNumber,
    recipients := [message.recipient.phoneNumber],
    body := message.content.text,
    mediaUrls := message.content.media.map fun media => media.url }

/-- `mmsService.twilioProvider`: check credentials, then perform the
network call (the `network` oracle stands for
`client_twilio.messages.create`, yielding the provider sid on success);
transport errors are wrapped as "Twilio error: ...". -/
def twilioProvider (message : Message) (client : Client)
    (network : Except String String) : Except String SendResult :=
  let creds := client.mmsSettings.apiCredentials
  if !truthyStr creds.accountSid || !truthyStr creds.authToken
      || !truthyStr creds.fromNumber then
    .error "Twilio credentials not configured"
  else
    let _payload := twilioMessageData message (creds.fromNumber.getD "")
    match network with
    | .ok sid => .ok { messageId := sid, response := sid, provider := "twilio" }
    | .error e => .error ("Twilio error: " ++ e)

/-- `mmsService.bandwidthProvider`, analogous. -/
def bandwidthProvider (message : Message) (client : Client)
    (network : Except String String) : Except String SendResult :=
  let creds := client.mmsSettings.apiCredentials
  if !truthyStr creds.accountId || !truthyStr creds.username
      || !truthyStr creds.password || !truthyStr creds.fromNumber then
    .error "Bandwidth credentials not configured"
  else
    let _payload := bandwidthMessageData message (creds.fromNumber.getD "")
    match network with
    | .ok rid => .ok { messageId := rid, response := rid, provider := "bandwidth" }
    | .error e => .error ("Bandwidth error: " ++ e)

/-- `mmsService.messagebirdProvider`, analogous. -/
def messagebirdProvider (message : Message) (client : Client)
    (network : Except String String) : Except String SendResult :=
  let creds := client.mmsSettings.apiCredentials
  if !truthyStr creds.apiKey || !truthyStr creds.fromNumber then
    .error "MessageBird credentials not configured"
  else
    let _payload := messagebirdMessageData message (creds.fromNumber.getD "")
    match network with
    | .ok rid =>
      .ok { messageId := rid, response := rid, provider := "messagebird" }
    | .error e => .error ("MessageBird error: " ++ e)

/-- `mmsService.sendMessage`: pick the provider from
`client.mmsSettings.provider || "twilio"` via the lookup table and call
it; an unknown name throws.  Note that no phone-number formatting
happens anywhere on this path. -/
def sendMessage (message : Message) (client : Client)
    (network : Except String String) : Except String SendResult :=
  let provider :=
    if client.mmsSettings.provider.isEmpty then "twilio"
    else client.mmsSettings.provider
  if provider == "twilio" then twilioProvider message client network
  else if provider == "bandwidth" then bandwidthProvider message client network
  else if provider == "messagebird" then
    messagebirdProvider message client network
  else .error ("Unsupported MMS provider: " ++ provider)

/-! ## The routes (`src/server/routes/messages.js`) -/

/-- The response of `POST /send` (the shapes the handler can produce
after express-validator has accepted the request body). -/
inductive SendResponse where
  | clientNotFound
  | clientCannotSend
  | recipientOptedOut
  | templateNotFound
  | templateInvalid (errors : List String)
  | complianceRejected (details : List String)
  | messageSent (providerMessageId : String)
  | sendFailed (error : String)
  | messageScheduled
  | serverError
deriving DecidableEq

/-- Outcome of the template collaborator for a templated request
(`Template.findById` + `validateVariables` + `render`), an external
collaborator of the send route. -/
inductive TemplateOutcome where
  | notFound
  | invalid (errors : List String)
  | rendered (text : Option String) (media : List MediaItem)
deriving DecidableEq

/-- The handler of `POST /send`, from the client lookup on.  The message
store is the list of persisted messages; the returned list is the store
after the request.  `templateOutcome` is consulted only when the request
carries a `templateId`; `hour` feeds the business-hours check; `network`
is the provider transport; `now` stamps `sentAt`. -/
def sendRoute (clientLookup : Option Client) (recipient : Recipient)
    (content : Content) (isScheduled : Bool)
    (templateOutcome : TemplateOutcome) (hour : Nat)
    (network : Except String String) (now : Nat)
    (store : List Message) : SendResponse × List Message :=
  match clientLookup with
  | none => (.clientNotFound, store)
  | some client =>
    if !canSendMessage client then (.clientCannotSend, store)
    else if store.any (fun m =>
        m.recipient.phoneNumber == recipient.phoneNumber
          && m.recipient.optOutStatus) then
      (.recipientOptedOut, store)
    else
      let resolved : Except SendResponse Content :=
        match content.templateId with
        | none => .ok content
        | some tid =>
          match templateOutcome with
          | .notFound => .error .templateNotFound
          | .invalid errs => .error (.templateInvalid errs)
          | .rendered text media =>
            .ok { text := text, media := media, templateId := some tid }
      match resolved with
      | .error resp => (resp, store)
      | .ok messageContent =>
        let complianceResult :=
          checkMessageCompliance client recipient messageContent hour
        if !complianceResult.passed then
          (.complianceRejected complianceResult.details, store)
        else
          let message : Message :=
            { recipient :=
                { recipient with
                  ageVerified := complianceResult.ageVerified,
                  consentGiven := complianceResult.consentVerified },
              content := messageContent,
              delivery := defaultDelivery,
              compliance :=
                { ageVerificationPassed := complianceResult.ageVerified,
                  consentVerified := complianceResult.consentVerified,
                  contentScreened := complianceResult.contentScreened,
                  disclaimersIncluded := complianceResult.disclaimersIncluded },
              scheduling := { isScheduled := isScheduled } }
          match save message with
          | .error _ => (.serverError, store)
          | .ok saved =>
            if !isScheduled then
              match sendMessage saved client network with
              | .ok sendResult =>
                match updateDeliveryStatus saved .sent now
                    { providerMessageId := some (some sendResult.messageId),
                      providerResponse := some (some sendResult.response) } with
                | .ok final =>
                  (.messageSent sendResult.messageId, store ++ [final])
                | .error _ => (.serverError, store ++ [saved])
              | .error e =>
                match updateDeliveryStatus saved .failed now
                    { failureReason := some (some e) } with
                | .ok final => (.sendFailed e, store ++ [final])
                | .error _ => (.serverError, store ++ [saved])
            else
              (.messageScheduled, store ++ [saved])

/-- The response of `POST /:messageId/retry`. -/
inductive RetryResponse where
  | notRetryable
  | clientCannotSend
  | retrySent (providerMessageId : String)
  | retryFailed (error : String)
  | serverError
deriving DecidableEq

/-- The handler of `POST /:messageId/retry`, from the point where the
message was found: reject when `canRetry()` fails, then when the client
cannot send; otherwise `incrementRetry()`, re-dispatch, and record the
outcome.  Returns the response and the message's final persisted
state. -/
def retryRoute (m : Message) (client : Client)
    (network : Except String String) (now : Nat) :
    RetryResponse × Message :=
  if !canRetry m then (.notRetryable, m)
  else if !canSendMessage client then (.clientCannotSend, m)
  else
    match incrementRetry m with
    | .error _ => (.serverError, m)
    | .ok m1 =>
      match sendMessage m1 client network with
      | .ok sendResult =>
        match updateDeliveryStatus m1 .sent now
            { providerMessageId := some (some sendResult.messageId),
              providerResponse := some (some sendResult.response) } with
        | .ok m2 => (.retrySent sendResult.messageId, m2)
        | .error _ => (.serverError, m1)
      | .error e =>
        match updateDeliveryStatus m1 .failed now
            { failureReason := some (some e) } with
        | .ok m2 => (.retryFailed e, m2)
        | .error _ => (.serverError, m1)

/-- The handler of `POST /webhook`, from the point where the message was
found: `updateDeliveryStatus(status, { failureReason: error })` — the
`failureReason` key is always present in the patch (its value is the
request's optional `error`). -/
def webhookRoute (m : Message) (status : DeliveryStatus)
    (error : Option String) (now : Nat) : Except String Message :=
  updateDeliveryStatus m status now { failureReason := some error }

/-! ## Reachable persisted messages

A message enters the store through the send route's initial
`message.save()` with the schema-default delivery sub-record, and is
afterwards mutated only by `updateDeliveryStatus` and `incrementRetry`
(the only writers in the repository). -/

/-- The persisted-message states reachable through the repository's
operations. -/
inductive Reached : Message → Prop where
  | created (m : Message) :
      m.delivery = defaultDelivery → save m = .ok m → Reached m
  | updated (m m' : Message) (s : DeliveryStatus) (now : Nat)
      (p : DeliveryPatch) :
      Reached m → updateDeliveryStatus m s now p = .ok m' → Reached m'
  | retried (m m' : Message) :
      Reached m → incrementRetry m = .ok m' → Reached m'

/-! ## Basic lemmas about `save` and the transition methods -/

/-- `save` never alters the record it accepts. -/
theorem save_eq_ok {m m' : Message} (h : save m = .ok m') : m' = m := by
  unfold save at h
  split at h
  · simp at h
  · split at h
    · simp at h
    · exact ((Except.ok.injEq m m').mp h).symm

/-- A record that `save` accepts while `pending` carries both compliance
flags. -/
theorem save_pending_flags {m : Message} (h : save m = .ok m)
    (hp : m.delivery.status = .pending) :
    m.compliance.ageVerificationPassed = true
      ∧ m.compliance.consentVerified = true := by
  unfold save at h
  split at h
  · simp at h
  next h1 =>
    split at h
    · simp at h
    next h2 =>
      constructor
      · by_contra ha
        exact h1 ⟨hp, by simpa using ha⟩
      · by_contra hc
        exact h2 ⟨hp, by simpa using hc⟩

/-- `updateDeliveryStatus` never changes the compliance sub-record. -/
theorem updateDeliveryStatus_compliance {m m' : Message}
    {s : DeliveryStatus} {now : Nat} {p : DeliveryPatch}
    (h : updateDeliveryStatus m s now p = .ok m') :
    m'.compliance = m.compliance := by
  have := save_eq_ok h
  rw [this]

/-- `incrementRetry` never changes the compliance sub-record. -/
theorem incrementRetry_compliance {m m' : Message}
    (h : incrementRetry m = .ok m') : m'.compliance = m.compliance := by
  have := save_eq_ok h
  rw [this]

/-- Every reachable persisted message carries both compliance flags: the
initial save happens in status `pending`, where the pre-save middleware
demands them, and no later writer touches the compliance sub-record. -/
theorem reached_compliance_flags (m : Message) (h : Reached m) :
    m.compliance.ageVerificationPassed = true
      ∧ m.compliance.consentVerified = true := by
  induction h with
  | created m hd hs =>
    have hp : m.delivery.status = .pending := by rw [hd]; rfl
    exact save_pending_flags hs hp
  | updated m m' s now p _ hupd ih =>
    have hc := updateDeliveryStatus_compliance hupd
    exact ⟨by rw [hc]; exact ih.1, by rw [hc]; exact ih.2⟩
  | retried m m' _ hinc ih =>
    have hc := incrementRetry_compliance hinc
    exact ⟨by rw [hc]; exact ih.1, by rw [hc]; exact ih.2⟩

/-! ## Shared concrete fixtures -/

/-- A fully verified recipient. -/
def recipientWit : Recipient :=
  { phoneNumber := "+12025550123", ageVerified := true,
    consentGiven := true, optOutStatus := false }

/-- A plain direct content. -/
def contentWit : Content :=
  { text := some "Hello. For adults 21+ only", media := [], templateId := none }

/-- A fully compliant message compliance sub-record. -/
def complianceAllTrue : MessageCompliance :=
  { ageVerificationPassed := true, consentVerified := true,
    contentScreened := true, disclaimersIncluded := true }

/-- A compliance sub-record with every flag false. -/
def complianceAllFalse : MessageCompliance :=
  { ageVerificationPassed := false, consentVerified := false,
    contentScreened := false, disclaimersIncluded := false }

/-- A freshly-created compliant pending message. -/
def pendingWit : Message :=
  { recipient := recipientWit, content := contentWit,
    delivery := defaultDelivery, compliance := complianceAllTrue,
    scheduling := { isScheduled := false } }

/-- `pendingWit` after `updateDeliveryStatus("sent")` at time 5. -/
def sentWit : Message :=
  { pendingWit with
    delivery := { defaultDelivery with status := .sent, sentAt := some 5 } }

/-- A record already in status `"sent"` whose compliance flags are all
false — the shape claim C1 says the save guard rejects. -/
def sentNoFlags : Message :=
  { recipient := recipientWit, content := contentWit,
    delivery := { defaultDelivery with status := .sent },
    compliance := complianceAllFalse,
    scheduling := { isScheduled := false } }

/-! ## Claim C1 -/

/-- Claim C1, counterexample: the pre-save middleware checks only
records whose status is `"pending"`, so persisting a record that is
already in status `"sent"` with both compliance flags false is accepted,
not rejected — refuting "any attempted persistence of a transition into
'sent' for a message whose compliance sub-record lacks either flag is
rejected at save time". -/
theorem C1_save_accepts_sent_without_flags :
    sentNoFlags.delivery.status = .sent
      ∧ sentNoFlags.compliance.ageVerificationPassed = false
      ∧ sentNoFlags.compliance.consentVerified = false
      ∧ save sentNoFlags = .ok sentNoFlags :=
  ⟨rfl, rfl, rfl, rfl⟩

/-- Claim C1 as amended: the save-time guard fires only on records in
status `"pending"`; nevertheless, for every message reachable through
the repository's writers (initial save with the schema-default pending
delivery sub-record, then `updateDeliveryStatus` / `incrementRetry`),
`delivery.status == "sent"` implies that
`compliance.ageVerificationPassed` and `compliance.consentVerified` are
both true, because the initial pending save enforces both flags and no
writer ever clears them. -/
theorem C1_sent_implies_compliance (m : Message) (h : Reached m)
    (_hs : m.delivery.status = .sent) :
    m.compliance.ageVerificationPassed = true
      ∧ m.compliance.consentVerified = true :=
  reached_compliance_flags m h

/-- Witness for C1: a concrete reachable `"sent"` message satisfies the
invariant. -/
theorem C1_sent_implies_compliance_witness :
    sentWit.compliance.ageVerificationPassed = true
      ∧ sentWit.compliance.consentVerified = true :=
  C1_sent_implies_compliance sentWit
    (Reached.updated pendingWit sentWit .sent 5 {}
      (Reached.created pendingWit rfl rfl) rfl)
    rfl

/-! ## More transition lemmas -/

/-- The status written by `deliveryAfter` is exactly the requested one,
whatever the prior status. -/
theorem deliveryAfter_status (d : Delivery) (s : DeliveryStatus) (now : Nat)
    (p : DeliveryPatch) : (deliveryAfter d s now p).status = s := by
  cases s <;> rfl

/-- `deliveryAfter` never touches `retryCount`. -/
theorem deliveryAfter_retryCount (d : Delivery) (s : DeliveryStatus)
    (now : Nat) (p : DeliveryPatch) :
    (deliveryAfter d s now p).retryCount = d.retryCount := by
  cases s <;> rfl

/-- `deliveryAfter` never touches `maxRetries`. -/
theorem deliveryAfter_maxRetries (d : Delivery) (s : DeliveryStatus)
    (now : Nat) (p : DeliveryPatch) :
    (deliveryAfter d s now p).maxRetries = d.maxRetries := by
  cases s <;> rfl

/-- The pre-save guard only looks at `pending` records. -/
theorem save_ok_of_ne_pending {m : Message}
    (h : m.delivery.status ≠ .pending) : save m = .ok m := by
  unfold save
  rw [if_neg fun hh => h hh.1, if_neg fun hh => h hh.1]

/-- A record with both compliance flags set always saves. -/
theorem save_ok_of_flags {m : Message}
    (ha : m.compliance.ageVerificationPassed = true)
    (hc : m.compliance.consentVerified = true) : save m = .ok m := by
  unfold save
  rw [if_neg, if_neg]
  · rintro ⟨-, hfalse⟩
    simp [hc] at hfalse
  · rintro ⟨-, hfalse⟩
    simp [ha] at hfalse

/-- `updateDeliveryStatus` into a non-`pending` status always succeeds,
with the delivery sub-record given by `deliveryAfter`. -/
theorem updateDeliveryStatus_ok_of_ne_pending {m : Message}
    {s : DeliveryStatus} {now : Nat} {p : DeliveryPatch}
    (h : s ≠ .pending) :
    updateDeliveryStatus m s now p =
      .ok { m with delivery := deliveryAfter m.delivery s now p } := by
  unfold updateDeliveryStatus
  apply save_ok_of_ne_pending
  show (deliveryAfter m.delivery s now p).status ≠ .pending
  rw [deliveryAfter_status]
  exact h

/-! ## Claim C10 -/

/-- Claim C10 (confirmed): `updateDeliveryStatus` performs no
lifecycle-transition validation — for every persisted message (which by
`reached_compliance_flags` carries both compliance flags) and every
status of the schema enum, the call succeeds and unconditionally
overwrites `delivery.status` with the requested value, regardless of the
prior status; in particular the webhook can move a `"delivered"` message
back to `"failed"` or `"pending"`. -/
theorem C10_updateDeliveryStatus_unvalidated (m : Message)
    (s : DeliveryStatus) (now : Nat) (p : DeliveryPatch)
    (hage : m.compliance.ageVerificationPassed = true)
    (hcons : m.compliance.consentVerified = true) :
    ∃ m', updateDeliveryStatus m s now p = .ok m'
      ∧ m'.delivery.status = s := by
  refine ⟨{ m with delivery := deliveryAfter m.delivery s now p }, ?_, ?_⟩
  · exact save_ok_of_flags hage hcons
  · exact deliveryAfter_status _ _ _ _

/-- A concrete delivered message. -/
def deliveredWit : Message :=
  { pendingWit with
    delivery := { defaultDelivery with
                  status := .delivered, deliveredAt := some 6 } }

/-- Witness for C10: the concrete delivered message can be pushed back
to `"pending"` and to `"failed"`. -/
theorem C10_updateDeliveryStatus_unvalidated_witness :
    (∃ m', updateDeliveryStatus deliveredWit .pending 7 {} = .ok m'
      ∧ m'.delivery.status = .pending)
    ∧ (∃ m', updateDeliveryStatus deliveredWit .failed 8 {} = .ok m'
      ∧ m'.delivery.status = .failed) :=
  ⟨C10_updateDeliveryStatus_unvalidated deliveredWit .pending 7 {} rfl rfl,
   C10_updateDeliveryStatus_unvalidated deliveredWit .failed 8 {} rfl rfl⟩

/-! ## Claim C2 -/

/-- A retry refused by `canRetry` leaves the message untouched. -/
theorem retryRoute_not_retryable {m : Message} {client : Client}
    {network : Except String String} {now : Nat}
    (h : canRetry m = false) :
    retryRoute m client network now = (.notRetryable, m) := by
  unfold retryRoute
  simp [h]

/-- A retry refused by the client eligibility check leaves the message
untouched. -/
theorem retryRoute_client_blocked {m : Message} {client : Client}
    {network : Except String String} {now : Nat}
    (h : canRetry m = true) (h2 : canSendMessage client = false) :
    retryRoute m client network now = (.clientCannotSend, m) := by
  unfold retryRoute
  simp [h, h2]

/-- `canRetry` unfolded into its two conditions. -/
theorem canRetry_iff {m : Message} :
    canRetry m = true ↔
      m.delivery.retryCount < m.delivery.maxRetries
        ∧ m.delivery.status = .failed := by
  unfold canRetry
  simp

/-- A permitted retry increments `retryCount` by exactly one and leaves
`maxRetries` alone, whatever the dispatch outcome. -/
theorem retryRoute_increments {m : Message} {c : Client}
    {w : Except String String} {t : Nat}
    (hcr : canRetry m = true) (hcs : canSendMessage c = true) :
    (retryRoute m c w t).2.delivery.retryCount
        = m.delivery.retryCount + 1
      ∧ (retryRoute m c w t).2.delivery.maxRetries
        = m.delivery.maxRetries := by
  have hfail : m.delivery.status = .failed := (canRetry_iff.mp hcr).2
  set m1 : Message :=
    { m with delivery := { m.delivery with
                           retryCount := m.delivery.retryCount + 1 } }
    with hm1
  have hst : m1.delivery.status = .failed := hfail
  have hinc : incrementRetry m = .ok m1 := by
    unfold incrementRetry
    rw [← hm1]
    apply save_ok_of_ne_pending
    rw [hst]
    simp
  have hrc : m1.delivery.retryCount = m.delivery.retryCount + 1 := rfl
  have hmr : m1.delivery.maxRetries = m.delivery.maxRetries := rfl
  unfold retryRoute
  rw [hcr, hcs]
  simp only [Bool.not_true, Bool.false_eq_true, if_false, hinc]
  cases hsm : sendMessage m1 c w with
  | ok r =>
    have hupd := @updateDeliveryStatus_ok_of_ne_pending m1 DeliveryStatus.sent t
      { providerMessageId := some (some r.messageId),
        providerResponse := some (some r.response), failureReason := none }
      (by simp)
    simp [hupd, deliveryAfter_retryCount, deliveryAfter_maxRetries, hrc, hmr]
  | error e =>
    have hupd := @updateDeliveryStatus_ok_of_ne_pending m1
      DeliveryStatus.failed t
      { providerMessageId := none, providerResponse := none,
        failureReason := some (some e) }
      (by simp)
    simp [hupd, deliveryAfter_retryCount, deliveryAfter_maxRetries, hrc, hmr]

/-- Claim C2 (confirmed): `retryCount` never exceeds `maxRetries` —
the retry route only increments when `canRetry()` holds
(`status == "failed"` and `retryCount < maxRetries`), each permitted
retry adds exactly one, and once `retryCount == maxRetries` every retry
attempt is refused with the not-retryable rejection (the `StateError`
of the spec) and the message is left unchanged, hence terminally
failed. -/
theorem C2_retry_bound (m : Message) (client : Client)
    (network : Except String String) (now : Nat) :
    (m.delivery.retryCount ≤ m.delivery.maxRetries →
      (retryRoute m client network now).2.delivery.retryCount
        ≤ (retryRoute m client network now).2.delivery.maxRetries)
    ∧ (canRetry m = true → canSendMessage client = true →
      (retryRoute m client network now).2.delivery.retryCount
        = m.delivery.retryCount + 1)
    ∧ (m.delivery.retryCount = m.delivery.maxRetries →
      canRetry m = false
        ∧ retryRoute m client network now = (.notRetryable, m)) := by
  refine ⟨?_, ?_, ?_⟩
  · intro hle
    by_cases hcr : canRetry m
    · by_cases hcs : canSendMessage client
      · rcases retryRoute_increments hcr hcs with ⟨h1, h2⟩
        rw [h1, h2]
        have := (canRetry_iff.mp hcr).1
        omega
      · rw [retryRoute_client_blocked hcr (by simpa using hcs)]
        exact hle
    · rw [retryRoute_not_retryable (by simpa using hcr)]
      exact hle
  · intro hcr hcs
    exact (retryRoute_increments hcr hcs).1
  · intro heq
    have hcrf : canRetry m = false := by
      by_contra hcr
      have := (canRetry_iff.mp (by simpa using hcr)).1
      omega
    exact ⟨hcrf, retryRoute_not_retryable hcrf⟩

/-- A concrete eligible client: active subscription, under the limit,
compliant, twilio credentials present, age and consent required. -/
def clientWit : Client :=
  { complianceSettings :=
      { ageVerificationRequired := true, consentRequired := true,
        maxMessagesPerDay := 5,
        restrictedKeywords := some ["forbiddenword"],
        requiredDisclaimers := some ["For adults 21+ only"] },
    mmsSettings :=
      { provider := "twilio",
        apiCredentials :=
          { accountSid := some "AC1", authToken := some "tok",
            fromNumber := some "+15550001111", accountId := none,
            username := none, password := none, apiKey := none } },
    isActive := true,
    subscription := { status := "active", messagesUsed := 0,
                      messagesLimit := 100 },
    complianceStatus := "compliant" }

/-- A failed message with one retry used out of three. -/
def failedOnce : Message :=
  { pendingWit with
    delivery := { defaultDelivery with
                  status := .failed, retryCount := 1,
                  failureReason := some "transport down" } }

/-- A failed message that has exhausted its retries. -/
def failedMax : Message :=
  { pendingWit with
    delivery := { defaultDelivery with
                  status := .failed, retryCount := 3 } }

/-- Witness for C2: the concrete retryable message gains exactly one
retry; the exhausted one is refused untouched and stays within the
bound. -/
theorem C2_retry_bound_witness :
    (retryRoute failedOnce clientWit (.ok "SM1") 9).2.delivery.retryCount
        = failedOnce.delivery.retryCount + 1
      ∧ (canRetry failedMax = false
        ∧ retryRoute failedMax clientWit (.ok "SM1") 9
            = (.notRetryable, failedMax))
      ∧ (retryRoute failedMax clientWit (.ok "SM1") 9).2.delivery.retryCount
        ≤ (retryRoute failedMax clientWit (.ok "SM1") 9).2.delivery.maxRetries :=
  ⟨(C2_retry_bound failedOnce clientWit (.ok "SM1") 9).2.1 rfl rfl,
   (C2_retry_bound failedMax clientWit (.ok "SM1") 9).2.2 rfl,
   (C2_retry_bound failedMax clientWit (.ok "SM1") 9).1 (by decide)⟩

/-! ## Claim C3 -/

/-- A message that was marked sent at time 0. -/
def sentT0 : Message :=
  { pendingWit with
    delivery := { defaultDelivery with status := .sent, sentAt := some 0 } }

/-- `sentT0` after a `"delivered"` webhook at time 1. -/
def deliveredOnce : Message :=
  { pendingWit with
    delivery := { defaultDelivery with
                  status := .delivered, sentAt := some 0,
                  deliveredAt := some 1 } }

/-- `deliveredOnce` after a replayed `"delivered"` webhook at time 2. -/
def deliveredTwice : Message :=
  { pendingWit with
    delivery := { defaultDelivery with
                  status := .delivered, sentAt := some 0,
                  deliveredAt := some 2 } }

/-- Claim C3, counterexample: replaying the terminal `"delivered"`
webhook at a later time does **not** yield the same final record — the
second application overwrites `deliveredAt` with the replay's `new
Date()`, so the claim's "no-op, not an overwrite of the previously
recorded timestamp" is false on the code. -/
theorem C3_replay_overwrites_timestamp :
    webhookRoute sentT0 .delivered none 1 = .ok deliveredOnce
      ∧ webhookRoute deliveredOnce .delivered none 2 = .ok deliveredTwice
      ∧ deliveredTwice ≠ deliveredOnce
      ∧ deliveredTwice.delivery.deliveredAt
        ≠ deliveredOnce.delivery.deliveredAt :=
  ⟨rfl, rfl, by decide, by decide⟩

/-- Claim C3 as amended: replaying the same terminal `"delivered"`
webhook is not an error and leaves the status `"delivered"`, but each
application re-stamps `deliveredAt` with its own time: applying the
webhook twice equals applying it once at the second time, so the final
record matches the first application only when the replay carries the
same timestamp. -/
theorem C3_webhook_replay (m : Message) (e : Option String)
    (t1 t2 : Nat) :
    (webhookRoute m .delivered e t1).bind
        (fun m1 => webhookRoute m1 .delivered e t2)
      = webhookRoute m .delivered e t2
    ∧ (webhookRoute m .delivered e t1).map
        (fun m1 => m1.delivery.status) = .ok .delivered
    ∧ (webhookRoute m .delivered e t1).map
        (fun m1 => m1.delivery.deliveredAt) = .ok (some t1) :=
  ⟨rfl, rfl, rfl⟩

/-! ## Claim C4 -/

/-- Claim C4 (confirmed): once the send route reaches the compliance
evaluation (client found and eligible, recipient not opted out, direct
content), a failing verdict makes the route answer with the structured
rejection carrying the verdict's full reason list, and the message store
is returned unchanged — no record is created or persisted. -/
theorem C4_compliance_rejection (c : Client) (r : Recipient) (x : Content)
    (sched : Bool) (tpl : TemplateOutcome) (hour : Nat)
    (w : Except String String) (t : Nat) (store : List Message)
    (hcs : canSendMessage c = true)
    (hopt : store.any (fun m =>
        m.recipient.phoneNumber == r.phoneNumber
          && m.recipient.optOutStatus) = false)
    (hT : x.templateId = none)
    (hf : (checkMessageCompliance c r x hour).passed = false) :
    sendRoute (some c) r x sched tpl hour w t store
      = (.complianceRejected (checkMessageCompliance c r x hour).details,
         store) := by
  simp only [sendRoute, hcs, hopt, hT, Bool.not_true, Bool.false_eq_true,
    if_false, hf]
  simp [hf]

/-- A recipient who is neither age-verified nor consented. -/
def recipientNoVerify : Recipient :=
  { phoneNumber := "+12025550124", ageVerified := false,
    consentGiven := false, optOutStatus := false }

/-- Witness for C4: with the concrete eligible client and the concrete
unverified recipient, the send route rejects with the verdict's details
and leaves the empty store empty. -/
theorem C4_compliance_rejection_witness :
    sendRoute (some clientWit) recipientNoVerify contentWit false
        .notFound 10 (.ok "SM1") 3 []
      = (.complianceRejected
          (checkMessageCompliance clientWit recipientNoVerify
            contentWit 10).details, []) :=
  C4_compliance_rejection clientWit recipientNoVerify contentWit false
    .notFound 10 (.ok "SM1") 3 [] rfl rfl rfl rfl

/-! ## Characterizing the aggregated verdict -/

/-- Full characterization of the verdict when the tenant's
required-disclaimer field is present: the reason list is the
concatenation of one reason per failed applicable check, in source
order, and `passed` is the conjunction of the individual outcomes. -/
theorem checkMessageCompliance_spec (c : Client) (r : Recipient)
    (x : Content) (hour : Nat) (ds : List String)
    (h : c.complianceSettings.requiredDisclaimers = some ds) :
    (checkMessageCompliance c r x hour).details =
        (if verifyAge r c then [] else ["Age verification required"])
        ++ (if verifyConsent r c then [] else ["Consent verification required"])
        ++ (if (screenContent x c).approved then []
            else ["Content failed screening: " ++ (screenContent x c).reason])
        ++ (if !(checkDisclaimers x c).included && decide (ds.length > 0) then
              ["Required disclaimers missing"] else [])
        ++ (if checkBusinessHours hour then []
            else ["Messages not allowed outside business hours"])
        ++ (if checkRateLimit r c then []
            else ["Rate limit exceeded for recipient"])
      ∧ (checkMessageCompliance c r x hour).passed =
        (verifyAge r c && verifyConsent r c && (screenContent x c).approved
          && !(!(checkDisclaimers x c).included && decide (ds.length > 0))
          && checkBusinessHours hour) := by
  simp only [checkMessageCompliance, h]
  by_cases hA : verifyAge r c <;>
    by_cases hC : verifyConsent r c <;>
      by_cases hS : (screenContent x c).approved <;>
        by_cases hD : (!(checkDisclaimers x c).included
            && decide (ds.length > 0)) = true <;>
          by_cases hH : checkBusinessHours hour <;>
            simp [hA, hC, hS, hD, hH, checkRateLimit]

/-! ## Claim C5 -/

/-- Claim C5 (confirmed): `checkMessageCompliance` evaluates all six
checks on every invocation without short-circuiting — the reason list is
exactly the concatenation of one reason per failed applicable check (the
stubbed rate-limit check never fails), and in particular a message
failing both age verification and content screening yields a verdict
whose reason list contains both failures. -/
theorem C5_no_short_circuit (c : Client) (r : Recipient) (x : Content)
    (hour : Nat) (ds : List String)
    (h : c.complianceSettings.requiredDisclaimers = some ds) :
    ((checkMessageCompliance c r x hour).details =
        (if verifyAge r c then [] else ["Age verification required"])
        ++ (if verifyConsent r c then [] else ["Consent verification required"])
        ++ (if (screenContent x c).approved then []
            else ["Content failed screening: " ++ (screenContent x c).reason])
        ++ (if !(checkDisclaimers x c).included && decide (ds.length > 0) then
              ["Required disclaimers missing"] else [])
        ++ (if checkBusinessHours hour then []
            else ["Messages not allowed outside business hours"])
        ++ (if checkRateLimit r c then []
            else ["Rate limit exceeded for recipient"]))
      ∧ (verifyAge r c = false → (screenContent x c).approved = false →
          "Age verification required"
              ∈ (checkMessageCompliance c r x hour).details
            ∧ ("Content failed screening: " ++ (screenContent x c).reason)
              ∈ (checkMessageCompliance c r x hour).details) := by
  obtain ⟨hd, -⟩ := checkMessageCompliance_spec c r x hour ds h
  refine ⟨hd, ?_⟩
  intro hA hS
  rw [hd]
  simp [hA, hS]

/-- A client whose tenant keyword list flags "cannabis". -/
def clientKW : Client :=
  { clientWit with
    complianceSettings := { clientWit.complianceSettings with
                            restrictedKeywords := some ["cannabis"] } }

/-- Content that hits the tenant keyword and carries the required
disclaimer. -/
def contentKW : Content :=
  { text := some "Cannabis deal. For adults 21+ only", media := [],
    templateId := none }

/-- Witness for C5: the concrete unverified recipient plus keyword-hit
content produces a verdict listing both the age failure and the content
failure. -/
theorem C5_no_short_circuit_witness :
    "Age verification required"
        ∈ (checkMessageCompliance clientKW recipientNoVerify
            contentKW 10).details
      ∧ ("Content failed screening: "
            ++ (screenContent contentKW clientKW).reason)
        ∈ (checkMessageCompliance clientKW recipientNoVerify
            contentKW 10).details :=
  (C5_no_short_circuit clientKW recipientNoVerify contentKW 10
    ["For adults 21+ only"] rfl).2 rfl rfl

/-! ## Claim C8 -/

/-- The disclaimer-missing reason is never equal to a content-screening
reason, whatever the screening text. -/
theorem requiredMissing_ne_content (s : String) :
    "Required disclaimers missing" ≠ "Content failed screening: " ++ s := by
  intro h
  have h2 : ("Required disclaimers missing").data.head?
      = ("Content failed screening: " ++ s).data.head? := by rw [h]
  have h3 : ("Content failed screening: " ++ s).data.head? = some 'C' := rfl
  have h4 : ("Required disclaimers missing").data.head? = some 'R' := rfl
  rw [h3, h4] at h2
  exact absurd h2 (by decide)

/-- Claim C8 (confirmed): with a non-empty tenant disclaimer list none
of whose entries occurs in the text, the verdict fails and carries the
disclaimer reason; with an empty tenant disclaimer list the disclaimer
check can never fail the verdict — `passed` is exactly the conjunction
of the other applicable checks and the disclaimer reason is absent. -/
theorem C8_disclaimer_gate (c : Client) (r : Recipient) (x : Content)
    (hour : Nat) (ds : List String)
    (h : c.complianceSettings.requiredDisclaimers = some ds) :
    (ds ≠ [] →
      (∀ d ∈ ds, containsSub (textOf x) (strLower d) = false) →
        (checkMessageCompliance c r x hour).passed = false
          ∧ "Required disclaimers missing"
              ∈ (checkMessageCompliance c r x hour).details)
    ∧ (ds = [] →
        "Required disclaimers missing"
            ∉ (checkMessageCompliance c r x hour).details
          ∧ (checkMessageCompliance c r x hour).passed =
              (verifyAge r c && verifyConsent r c
                && (screenContent x c).approved
                && checkBusinessHours hour)) := by
  obtain ⟨hd, hp⟩ := checkMessageCompliance_spec c r x hour ds h
  constructor
  · intro hne hnone
    have hincl : (checkDisclaimers x c).included = false := by
      unfold checkDisclaimers
      rw [h]
      have hfil : ds.filter
          (fun d => containsSub (textOf x) (strLower d)) = [] := by
        rw [List.filter_eq_nil_iff]
        intro d hdmem
        simp [hnone d hdmem]
      simp [hfil]
    have hlen : decide (ds.length > 0) = true := by
      cases ds with
      | nil => exact absurd rfl hne
      | cons a as => simp
    constructor
    · rw [hp, hincl, hlen]
      simp
    · rw [hd, hincl, hlen]
      simp
  · intro hnil
    subst hnil
    constructor
    · rw [hd]
      by_cases hA : verifyAge r c <;>
        by_cases hC : verifyConsent r c <;>
          by_cases hS : (screenContent x c).approved <;>
            by_cases hH : checkBusinessHours hour <;>
              simp [hA, hC, hS, hH, checkRateLimit,
                requiredMissing_ne_content]
    · rw [hp]
      simp

/-- A client requiring a disclaimer the test text lacks. -/
def clientDisc : Client :=
  { clientWit with
    complianceSettings := { clientWit.complianceSettings with
                            requiredDisclaimers :=
                              some ["Drink responsibly"] } }

/-- A client whose required-disclaimer list is present but empty. -/
def clientNoDisc : Client :=
  { clientWit with
    complianceSettings := { clientWit.complianceSettings with
                            requiredDisclaimers := some [] } }

/-- Harmless direct content without any disclaimer. -/
def contentPlain : Content :=
  { text := some "Hello world", media := [], templateId := none }

/-- Witness for C8: the concrete non-empty-list client fails with the
disclaimer reason; the concrete empty-list client can never fail on
disclaimers. -/
theorem C8_disclaimer_gate_witness :
    ((checkMessageCompliance clientDisc recipientWit contentPlain 10).passed
          = false
      ∧ "Required disclaimers missing"
          ∈ (checkMessageCompliance clientDisc recipientWit
              contentPlain 10).details)
    ∧ ("Required disclaimers missing"
          ∉ (checkMessageCompliance clientNoDisc recipientWit
              contentPlain 10).details
      ∧ (checkMessageCompliance clientNoDisc recipientWit
            contentPlain 10).passed =
          (verifyAge recipientWit clientNoDisc
            && verifyConsent recipientWit clientNoDisc
            && (screenContent contentPlain clientNoDisc).approved
            && checkBusinessHours 10)) :=
  ⟨(C8_disclaimer_gate clientDisc recipientWit contentPlain 10
      ["Drink responsibly"] rfl).1 (by decide) (by decide),
   (C8_disclaimer_gate clientNoDisc recipientWit contentPlain 10
      [] rfl).2 rfl⟩

/-! ## Claim C6 -/

/-- Content hitting both the tenant keyword list ("cannabis") and an
inappropriate-content pattern ("minor"). -/
def contentKWPat : Content :=
  { text := some "cannabis for minors", media := [], templateId := none }

/-- Claim C6, counterexample: on content failing both the keyword scan
and the pattern scan, the recorded reason is the pattern's — the later
check overwrote the keyword reason — refuting "the first encountered
failure in the fixed order keyword, pattern, media, length".  (The
`screened = true` half of the claim does hold.) -/
theorem C6_first_reason_counterexample :
    (screenContent contentKWPat clientKW).flaggedKeywords = ["cannabis"]
      ∧ checkInappropriateContent (textOf contentKWPat) = false
      ∧ (screenContent contentKWPat clientKW).reason
        = "Content contains inappropriate language"
      ∧ (screenContent contentKWPat clientKW).reason
        ≠ "Content contains restricted keywords: cannabis"
      ∧ (screenContent contentKWPat clientKW).screened = true := by
  refine ⟨rfl, rfl, rfl, ?_, rfl⟩
  decide

/-- Claim C6 as amended: each failing check of `screenContent`
overwrites `reason` in the source order keyword, pattern, media, length,
so the recorded reason is that of the **last** encountered failure in
that order (length over media over pattern over keyword); and the result
still reports `screened = true` even when `approved = false`. -/
theorem C6_reason_last_failure (x : Content) (c : Client) :
    (screenContent x c).screened = true
    ∧ ((textOf x).length > 1600 →
        (screenContent x c).reason = "Message exceeds character limit")
    ∧ (¬(textOf x).length > 1600 →
        ∀ v, mediaViolationOf x = some v → (screenContent x c).reason = v)
    ∧ (¬(textOf x).length > 1600 → mediaViolationOf x = none →
        checkInappropriateContent (textOf x) = false →
        (screenContent x c).reason = "Content contains inappropriate language")
    ∧ (¬(textOf x).length > 1600 → mediaViolationOf x = none →
        checkInappropriateContent (textOf x) = true →
        foundKeywordsOf x c ≠ [] →
        (screenContent x c).reason =
          "Content contains restricted keywords: "
            ++ String.intercalate ", " (foundKeywordsOf x c)) := by
  by_cases hL : (textOf x).length > 1600 <;>
    rcases hM : mediaViolationOf x with _ | v <;>
      by_cases hP : checkInappropriateContent (textOf x) <;>
        rcases hKE : foundKeywordsOf x c with _ | ⟨k, ks⟩ <;>
          simp [screenContent, hL, hM, hP, hKE]

/-- Witness for C6: with both keyword and pattern failing the recorded
reason is the pattern's; with only the keyword failing it is the
keyword's. -/
theorem C6_reason_last_failure_witness :
    (screenContent contentKWPat clientKW).reason
        = "Content contains inappropriate language"
      ∧ (screenContent contentKW clientKW).reason
        = "Content contains restricted keywords: "
            ++ String.intercalate ", " (foundKeywordsOf contentKW clientKW) :=
  ⟨(C6_reason_last_failure contentKWPat clientKW).2.2.2.1 (by decide) rfl rfl,
   (C6_reason_last_failure contentKW clientKW).2.2.2.2 (by decide) rfl rfl
     (by decide)⟩

/-! ## Claim C7 -/

/-- A client whose keyword and disclaimer lists are present but
empty. -/
def clientEmptyLists : Client :=
  { clientWit with
    complianceSettings := { clientWit.complianceSettings with
                            restrictedKeywords := some [],
                            requiredDisclaimers := some [] } }

/-- A client whose keyword field is absent (the only case the JS `||`
fallback fires). -/
def clientNoKWField : Client :=
  { clientWit with
    complianceSettings := { clientWit.complianceSettings with
                            restrictedKeywords := none } }

/-- A client whose disclaimer field is absent. -/
def clientNoDiscField : Client :=
  { clientWit with
    complianceSettings := { clientWit.complianceSettings with
                            requiredDisclaimers := none } }

/-- Text consisting of a default restricted keyword. -/
def contentCannabis : Content :=
  { text := some "cannabis", media := [], templateId := none }

/-- Text consisting of a default disclaimer. -/
def contentDisclaimer : Content :=
  { text := some "For adults 21+ only", media := [], templateId := none }

/-- Claim C7, counterexample: with a present-but-empty tenant keyword
list, text consisting of the default keyword "cannabis" is approved and
nothing is flagged — the built-in default list is *not* scanned (it is
scanned only when the field is absent); likewise a present-but-empty
disclaimer list never matches the built-in default disclaimers. -/
theorem C7_empty_list_counterexample :
    "cannabis" ∈ defaultRestrictedKeywords
      ∧ containsSub (textOf contentCannabis) "cannabis" = true
      ∧ (screenContent contentCannabis clientEmptyLists).approved = true
      ∧ (screenContent contentCannabis clientEmptyLists).flaggedKeywords = []
      ∧ (screenContent contentCannabis clientNoKWField).approved = false
      ∧ "For adults 21+ only" ∈ defaultRequiredDisclaimers
      ∧ containsSub (textOf contentDisclaimer)
          (strLower "For adults 21+ only") = true
      ∧ (checkDisclaimers contentDisclaimer clientEmptyLists).included
        = false := by
  refine ⟨by decide, rfl, rfl, rfl, rfl, by decide, rfl, rfl⟩

/-- Claim C7 as amended: the built-in default keyword and disclaimer
lists are used only when the tenant's field is **absent**
(`undefined`/`null`, the JS falsy case); a configured list — even an
empty one — is always used as-is, so an empty tenant list disables the
keyword scan entirely and leaves no disclaimer able to match. -/
theorem C7_fallback_only_when_absent (x : Content) (c : Client)
    (l : List String) :
    (c.complianceSettings.restrictedKeywords = some l →
        foundKeywordsOf x c =
          l.filter fun k => containsSub (textOf x) (strLower k))
    ∧ (c.complianceSettings.restrictedKeywords = none →
        foundKeywordsOf x c =
          defaultRestrictedKeywords.filter
            fun k => containsSub (textOf x) (strLower k))
    ∧ (c.complianceSettings.requiredDisclaimers = some l →
        (checkDisclaimers x c).found =
          l.filter fun d => containsSub (textOf x) (strLower d))
    ∧ (c.complianceSettings.requiredDisclaimers = none →
        (checkDisclaimers x c).found =
          defaultRequiredDisclaimers.filter
            fun d => containsSub (textOf x) (strLower d)) := by
  refine ⟨?_, ?_, ?_, ?_⟩ <;> intro h <;>
    simp [foundKeywordsOf, effectiveRestrictedKeywords, checkDisclaimers, h]

/-- Witness for C7: the concrete empty-list client scans exactly its
empty list, the absent-field clients scan the defaults. -/
theorem C7_fallback_only_when_absent_witness :
    foundKeywordsOf contentCannabis clientEmptyLists
        = List.filter
            (fun k => containsSub (textOf contentCannabis) (strLower k)) []
      ∧ foundKeywordsOf contentCannabis clientNoKWField
        = defaultRestrictedKeywords.filter
            (fun k => containsSub (textOf contentCannabis) (strLower k))
      ∧ (checkDisclaimers contentDisclaimer clientEmptyLists).found
        = List.filter
            (fun d => containsSub (textOf contentDisclaimer) (strLower d)) []
      ∧ (checkDisclaimers contentDisclaimer clientNoDiscField).found
        = defaultRequiredDisclaimers.filter
            (fun d => containsSub (textOf contentDisclaimer) (strLower d)) :=
  ⟨(C7_fallback_only_when_absent contentCannabis clientEmptyLists []).1 rfl,
   (C7_fallback_only_when_absent contentCannabis clientNoKWField []).2.1 rfl,
   (C7_fallback_only_when_absent contentDisclaimer clientEmptyLists
     []).2.2.1 rfl,
   (C7_fallback_only_when_absent contentDisclaimer clientNoDiscField
     []).2.2.2 rfl⟩

/-! ## Claim C9 -/

/-- A message whose recipient number is a bare 10-digit value. -/
def bareNumberMsg : Message :=
  { pendingWit with
    recipient := { phoneNumber := "2025550123", ageVerified := true,
                   consentGiven := true, optOutStatus := false } }

/-- Claim C9, counterexample: `formatPhoneNumber` would turn the bare
10-digit value "2025550123" into "+12025550123", but the payload built
for the provider carries the recipient value verbatim — normalization is
**not** applied before the send. -/
theorem C9_no_normalization_counterexample :
    validatePhoneNumber "2025550123" = true
      ∧ formatPhoneNumber "2025550123" = .ok "+12025550123"
      ∧ (twilioMessageData bareNumberMsg "+15550001111").msgTo
        = "2025550123"
      ∧ (twilioMessageData bareNumberMsg "+15550001111").msgTo
        ≠ "+12025550123" := by
  refine ⟨rfl, rfl, rfl, ?_⟩
  decide

/-- Claim C9 as amended: `formatPhoneNumber` implements exactly the
described normalization — invalid values are rejected, a bare 10-digit
value gets "+1" prepended, any other bare value gets "+" prepended, a
"+"-prefixed value is unchanged — but it is dead code on the send path:
every provider payload (`twilio`, `bandwidth`, `messagebird`) carries
`message.recipient.phoneNumber` verbatim.  (The E.164-like pattern is
enforced separately, by the Message schema's `recipient.phoneNumber`
validator at persistence time.) -/
theorem C9_format_rules (s : String) (m : Message) (f : String) :
    (validatePhoneNumber s = false →
        formatPhoneNumber s = .error "Invalid phone number format")
    ∧ (validatePhoneNumber s = true → startsWithPlus s = false →
        s.length = 10 → formatPhoneNumber s = .ok ("+1" ++ s))
    ∧ (validatePhoneNumber s = true → startsWithPlus s = false →
        s.length ≠ 10 → formatPhoneNumber s = .ok ("+" ++ s))
    ∧ (validatePhoneNumber s = true → startsWithPlus s = true →
        formatPhoneNumber s = .ok s)
    ∧ (twilioMessageData m f).msgTo = m.recipient.phoneNumber
    ∧ (bandwidthMessageData m f).msgTo = m.recipient.phoneNumber
    ∧ (messagebirdMessageData m f).recipients
      = [m.recipient.phoneNumber] := by
  refine ⟨?_, ?_, ?_, ?_, rfl, rfl, rfl⟩
  · intro hv
    simp [formatPhoneNumber, hv]
  · intro hv hp hlen
    simp [formatPhoneNumber, hv, hp, hlen]
  · intro hv hp hlen
    simp [formatPhoneNumber, hv, hp, hlen]
  · intro hv hp
    simp [formatPhoneNumber, hv, hp]

/-- Witness for C9: the four formatting rules at concrete numbers. -/
theorem C9_format_rules_witness :
    formatPhoneNumber "notanumber" = .error "Invalid phone number format"
      ∧ formatPhoneNumber "2025550123" = .ok ("+1" ++ "2025550123")
      ∧ formatPhoneNumber "44123456789" = .ok ("+" ++ "44123456789")
      ∧ formatPhoneNumber "+12025550123" = .ok "+12025550123"
      ∧ (twilioMessageData bareNumberMsg "+15550001111").msgTo
        = bareNumberMsg.recipient.phoneNumber :=
  ⟨(C9_format_rules "notanumber" bareNumberMsg "+15550001111").1 rfl,
   (C9_format_rules "2025550123" bareNumberMsg "+15550001111").2.1
     rfl rfl (by decide),
   (C9_format_rules "44123456789" bareNumberMsg "+15550001111").2.2.1
     rfl rfl (by decide),
   (C9_format_rules "+12025550123" bareNumberMsg "+15550001111").2.2.2.1
     rfl rfl,
   (C9_format_rules "2025550123" bareNumberMsg "+15550001111").2.2.2.2.1⟩
